import Mathlib

/-!
Verification of the Navigation block editor component
(src/packages/block-library/src/navigation/edit.js).

The development shallowly embeds the parts of the file that carry logic:

* the block-tree fragment the component reads (`NavBlock`, `subMenuClientId`);
* the dispatch binding `updateInnerBlocks` with its empty-list guard;
* the DOM color detector `detectColors` with its upward background walk;
* the component's event-driven state (`NavState`, `navStep`) covering the
  placeholder flag, the responsive-menu flag, attribute setters and color
  setters wired up in the JSX;
* the rendered view skeleton (`renderNavigation`) restricted to the pieces
  the specification talks about: the placeholder branch, the justification
  toolbar, the display-settings panel and the pair of contrast checkers;
* the render effect (`navigationEffect`) that runs color detection on web.

JSX chrome with no logic (class names, labels, popover props) is out of
scope; every embedded definition mirrors the corresponding source lines.
-/

/-- A block as the component sees it: a client id plus nested inner blocks.
Mirrors the objects returned by the external store's getBlocks. -/
inductive NavBlock : Type where
  | mk : String → List NavBlock → NavBlock

/-- Ephemeral identifier of a block instance (`b.clientId` in the source). -/
def NavBlock.clientId : NavBlock → String
  | .mk c _ => c

/-- Child blocks of a block (`b.innerBlocks` in the source). -/
def NavBlock.innerBlocks : NavBlock → List NavBlock
  | .mk _ bs => bs

/-- Source lines 322-324:
`innerBlocks.find( ( b ) => b.innerBlocks.length )?.innerBlocks[ 0 ]?.clientId`.
JS truthiness of a number is `length != 0`; the two optional chains become the
two `Option` matches. -/
def subMenuClientId (innerBlocks : List NavBlock) : Option String :=
  match innerBlocks.find? (fun b => b.innerBlocks.length != 0) with
  | none => none
  | some b =>
    match b.innerBlocks.head? with
    | none => none
    | some g => some g.clientId

/-- Source line 329: `hasExistingNavItems: !! innerBlocks.length`. -/
def hasExistingNavItems (innerBlocks : List NavBlock) : Bool :=
  innerBlocks.length != 0

/-- Outcome of the `updateInnerBlocks` dispatch binding (source lines 334-343):
`failure` models the `return false` branch; `dispatched blocks` models falling
through to `dispatch( blockEditorStore ).replaceInnerBlocks( clientId, blocks,
true )` (the JS function then returns `undefined`). The argument is `Option`al
because a JS caller may pass `undefined` or `null`; both map to `none`. -/
inductive UpdateResult : Type where
  | failure : UpdateResult
  | dispatched : Option (List NavBlock) → UpdateResult

/-- The guard condition `blocks?.length === 0` of source line 335. For a
nullish argument the optional chain yields `undefined`, and
`undefined === 0` is `false`. -/
def emptyListGuard (blocks : Option (List NavBlock)) : Bool :=
  match blocks with
  | none => false
  | some l => l.length == 0

/-- Source lines 334-343: the children-replace operation bound by
`withDispatch`. -/
def updateInnerBlocks (blocks : Option (List NavBlock)) : UpdateResult :=
  if emptyListGuard blocks then UpdateResult.failure
  else UpdateResult.dispatched blocks

/-- Effect of an `updateInnerBlocks` outcome on the block's current children.
On `failure` nothing was dispatched, so the children are untouched. On a
dispatched non-empty list the external store replaces the children. The
external store's behaviour on a dispatched nullish argument is outside this
file; the model leaves the children unchanged there (no claim depends on it). -/
def applyUpdateInnerBlocks (current : List NavBlock) (r : UpdateResult) :
    List NavBlock :=
  match r with
  | UpdateResult.failure => current
  | UpdateResult.dispatched none => current
  | UpdateResult.dispatched (some l) => l

/-- The `nodeType` distinction the walk tests on source lines 71-72
(`parentNode.nodeType === parentNode.ELEMENT_NODE`). -/
inductive DomNodeType : Type where
  | element : DomNodeType
  | document : DomNodeType
  | other : DomNodeType
deriving DecidableEq, Repr

/-- One ancestor on the parent chain: its node type and its computed
`backgroundColor`. -/
structure AncestorNode : Type where
  nodeType : DomNodeType
  backgroundColor : String
deriving DecidableEq, Repr

/-- A DOM node as `detectColors` reads it: computed `color`, computed
`backgroundColor`, and the chain of its parents (nearest parent first),
each with its own computed background. -/
structure DomNode : Type where
  color : String
  backgroundColor : String
  parentChain : List AncestorNode
deriving DecidableEq, Repr

/-- The document, abstracted to the one operation the source uses:
`doc.getElementById`. -/
abbrev DomDocument : Type := String → Option DomNode

/-- Source lines 50-52: `doc.getElementById( 'block-' + clientId )`. -/
def getBlockDOMNode (clientId : String) (doc : DomDocument) : Option DomNode :=
  doc ("block-" ++ clientId)

/-- The exact string the loop on source line 69 compares against: the
serialized computed value of a fully transparent background. -/
def transparentBackground : String := "rgba(0, 0, 0, 0)"

/-- The `while` loop of source lines 65-77: starting from the node's own
computed background, move to the parent and re-read while the current value
is fully transparent, a parent exists, and that parent is an element node.
Returns the last-read background together with the number of ancestors
stepped onto. -/
def backgroundWalk : String → List AncestorNode → String × Nat
  | bg, [] => (bg, 0)
  | bg, parent :: rest =>
    if bg = transparentBackground ∧ parent.nodeType = DomNodeType.element then
      let r := backgroundWalk parent.backgroundColor rest
      (r.1, r.2 + 1)
    else (bg, 0)

/-- Source lines 58-80: locate the node for the client id; if absent do
nothing; otherwise report the node's computed color through `setColor`, then
report the background found by the upward walk through `setBackground`.
The returned list is the sequence of callback invocations, in order; it is
the function's entire effect. -/
def detectColors {α : Type} (doc : DomDocument) (clientId : String)
    (setColor setBackground : String → α) : List α :=
  match getBlockDOMNode clientId doc with
  | none => []
  | some node =>
    [setColor node.color,
     setBackground (backgroundWalk node.backgroundColor node.parentChain).1]

/-- The computed backgrounds of the contiguous chain of element ancestors
above the starting node - exactly the ancestors the walk can ever reach,
since it stops at the first non-element parent. -/
def elementBackgrounds (ancestors : List AncestorNode) : List String :=
  (ancestors.takeWhile fun a => a.nodeType == DomNodeType.element).map
    fun a => a.backgroundColor

/-- Specification of the walk's reported value, phrased as the claim phrases
it: an opaque starting background is reported as is; from a transparent start
the first non-transparent element-ancestor background is reported, and if
every reachable ancestor background is transparent the last-read one (the
topmost reachable, or the start itself when there is none) is reported. -/
def walkSpecResult (bg : String) (ebs : List String) : String :=
  if bg = transparentBackground then
    match ebs.find? (fun b => b != transparentBackground) with
    | some b => b
    | none => ebs.getLastD bg
  else bg

/-- Specification of how many ancestors the walk steps onto: none from an
opaque start; from a transparent start, every transparent background plus the
first opaque one, capped by the number of reachable element ancestors. -/
def walkSpecSteps (bg : String) (ebs : List String) : Nat :=
  if bg = transparentBackground then
    min ((ebs.takeWhile fun b => b == transparentBackground).length + 1)
      ebs.length
  else 0

/-- Persisted block attributes used by the component (data-model section of
the spec): orientation, itemsJustification, showSubmenuIcon, isResponsive. -/
structure NavAttributes : Type where
  orientation : Option String
  itemsJustification : Option String
  showSubmenuIcon : Bool
  isResponsive : Bool
deriving DecidableEq, Repr

/-- The four color slots wired through `withColors`; the component only ever
replaces a slot's value through the provided setter. -/
structure NavColorSlots : Type where
  textColor : Option String
  backgroundColor : Option String
  overlayTextColor : Option String
  overlayBackgroundColor : Option String
deriving DecidableEq, Repr

/-- Names of the four color slots, for the `PanelColorSettings` onChange
handlers. -/
inductive NavColorSlotName : Type where
  | text : NavColorSlotName
  | background : NavColorSlotName
  | overlayText : NavColorSlotName
  | overlayBackground : NavColorSlotName
deriving DecidableEq, Repr

/-- The component-visible state: the two `useState` flags of lines 104-109,
the block's children in the external store, the attributes, the color slots,
and whether the enclosing block has been selected via `selectBlock`. The four
detected-color values are carried by `navigationEffect`'s output instead and
never feed back into any handler. -/
structure NavState : Type where
  isPlaceholderShown : Bool
  isResponsiveMenuOpen : Bool
  innerBlocks : List NavBlock
  attributes : NavAttributes
  colors : NavColorSlots
  navSelected : Bool

/-- The user-triggered events whose handlers appear in this file:
the placeholder's onCreate (lines 190-196), the justification toolbar's
onChange (lines 214-216), the two inspector toggles (lines 229-246), the
four color onChange handlers (lines 252-273), and the responsive wrapper's
onToggle (line 294). -/
inductive NavEvent : Type where
  | onCreate : Option (List NavBlock) → Bool → NavEvent
  | onChangeJustification : Option String → NavEvent
  | onToggleSubmenuIcon : Bool → NavEvent
  | onToggleResponsive : Bool → NavEvent
  | onToggleResponsiveMenu : Bool → NavEvent
  | onChangeColor : NavColorSlotName → Option String → NavEvent

/-- Replace one color slot's value (the onChange of `PanelColorSettings`). -/
def setColorSlot (c : NavColorSlots) (slot : NavColorSlotName)
    (v : Option String) : NavColorSlots :=
  match slot with
  | NavColorSlotName.text => { c with textColor := v }
  | NavColorSlotName.background => { c with backgroundColor := v }
  | NavColorSlotName.overlayText => { c with overlayTextColor := v }
  | NavColorSlotName.overlayBackground => { c with overlayBackgroundColor := v }

/-- One event-handler step. Handlers exist only in the branch of the render
that mounts them: the placeholder's onCreate only while the placeholder is
shown (lines 186-200), every other handler only in the populated view
(lines 207-302); an event whose handler is not mounted is a no-op.
The onCreate handler runs `setIsPlaceholderShown( false )`, then
`updateInnerBlocks( blocks )`, then `selectBlock( clientId )` when asked. -/
def navStep (s : NavState) (e : NavEvent) : NavState :=
  match e with
  | NavEvent.onCreate blocks selectNavigationBlock =>
    if s.isPlaceholderShown then
      { s with
        isPlaceholderShown := false
        innerBlocks :=
          applyUpdateInnerBlocks s.innerBlocks (updateInnerBlocks blocks)
        navSelected := if selectNavigationBlock then true else s.navSelected }
    else s
  | NavEvent.onChangeJustification v =>
    if s.isPlaceholderShown then s
    else { s with attributes := { s.attributes with itemsJustification := v } }
  | NavEvent.onToggleSubmenuIcon v =>
    if s.isPlaceholderShown then s
    else { s with attributes := { s.attributes with showSubmenuIcon := v } }
  | NavEvent.onToggleResponsive v =>
    if s.isPlaceholderShown then s
    else { s with attributes := { s.attributes with isResponsive := v } }
  | NavEvent.onToggleResponsiveMenu v =>
    if s.isPlaceholderShown then s
    else { s with isResponsiveMenuOpen := v }
  | NavEvent.onChangeColor slot v =>
    if s.isPlaceholderShown then s
    else { s with colors := setColorSlot s.colors slot v }

/-- Run a sequence of events from a state. -/
def navRun (s : NavState) (evs : List NavEvent) : NavState :=
  evs.foldl navStep s

/-- The component's state at mount: lines 104-109 initialise
`isPlaceholderShown` to `! hasExistingNavItems` and the responsive-menu flag
to `false`; children, attributes and color slots come from the host. -/
def initState (innerBlocks : List NavBlock) (attrs : NavAttributes)
    (colors : NavColorSlots) : NavState :=
  { isPlaceholderShown := ! hasExistingNavItems innerBlocks
    isResponsiveMenuOpen := false
    innerBlocks := innerBlocks
    attributes := attrs
    colors := colors
    navSelected := false }

/-- Whether an event is a creation event fired by the placeholder. -/
def navIsCreateEvent : NavEvent → Bool
  | NavEvent.onCreate _ _ => true
  | _ => false

/-- Whether a creation event actually supplied child content: its block list
is present and non-empty (an empty or nullish list supplies nothing). -/
def suppliesChildContent : NavEvent → Bool
  | NavEvent.onCreate (some (_ :: _)) _ => true
  | _ => false

/-- Source line 162: `Platform.OS === 'web'`. -/
def enableContrastChecking (platformOS : String) : Bool :=
  platformOS == "web"

/-- Source lines 202-205: the allowed controls of the justification toolbar. -/
def justifyAllowedControls (orientation : Option String) : List String :=
  if orientation = some "vertical" then ["left", "center", "right"]
  else ["left", "center", "right", "space-between"]

/-- The justification toolbar as rendered (lines 211-221): its current value
and its allowed-control set. -/
structure JustifyToolbarView : Type where
  value : Option String
  allowedControls : List String
deriving DecidableEq, Repr

/-- One contrast-warning display (lines 277-287): the detected colors it is
given. -/
structure ContrastCheckerView : Type where
  textColor : Option String
  backgroundColor : Option String
deriving DecidableEq, Repr

/-- The rendered output restricted to the specified pieces: whether the
placeholder branch was taken, the justification toolbar if mounted, whether
the display-settings panel is mounted, and the pair of contrast-warning
displays if mounted. -/
structure NavigationView : Type where
  isPlaceholder : Bool
  justifyToolbar : Option JustifyToolbarView
  displaySettingsPanel : Bool
  contrastCheckers : Option (ContrastCheckerView × ContrastCheckerView)
deriving DecidableEq, Repr

/-- The render of `Navigation` (lines 186-302). While the placeholder is
shown the component returns only the placeholder div (lines 186-200), so no
toolbar, panel or contrast checker exists. Otherwise: the justification
toolbar is mounted when `hasItemJustificationControls` (lines 210-222) with
value `attributes.itemsJustification` and the orientation-dependent allowed
controls; the display-settings panel when `hasSubmenuIndicatorSetting`
(lines 227-248); and the two contrast checkers exactly when
`enableContrastChecking` (lines 275-288), fed the four detected colors. -/
def renderNavigation (platformOS : String)
    (hasSubmenuIndicatorSetting hasItemJustificationControls : Bool)
    (detectedColor detectedBackgroundColor : Option String)
    (detectedOverlayColor detectedOverlayBackgroundColor : Option String)
    (s : NavState) : NavigationView :=
  if s.isPlaceholderShown then
    { isPlaceholder := true
      justifyToolbar := none
      displaySettingsPanel := false
      contrastCheckers := none }
  else
    { isPlaceholder := false
      justifyToolbar :=
        if hasItemJustificationControls then
          some { value := s.attributes.itemsJustification
                 allowedControls :=
                   justifyAllowedControls s.attributes.orientation }
        else none
      displaySettingsPanel := hasSubmenuIndicatorSetting
      contrastCheckers :=
        if enableContrastChecking platformOS then
          some ({ textColor := detectedColor
                  backgroundColor := detectedBackgroundColor },
                { textColor := detectedOverlayColor
                  backgroundColor := detectedOverlayBackgroundColor })
        else none }

/-- The state updates the render effect can perform: the four detected-color
setters of lines 164-170. -/
inductive DetectedUpdate : Type where
  | setDetectedColor : String → DetectedUpdate
  | setDetectedBackgroundColor : String → DetectedUpdate
  | setDetectedOverlayColor : String → DetectedUpdate
  | setDetectedOverlayBackgroundColor : String → DetectedUpdate
deriving DecidableEq, Repr

/-- The `useEffect` body of lines 172-184: bail out unless contrast checking
is enabled; otherwise detect colors for the block's node and, when a submenu
client id exists, for the submenu's node. The output is the sequence of
detected-color state updates the effect performs. -/
def navigationEffect (platformOS : String) (doc : DomDocument)
    (clientId : String) (subMenu : Option String) : List DetectedUpdate :=
  if ! enableContrastChecking platformOS then []
  else
    detectColors doc clientId DetectedUpdate.setDetectedColor
        DetectedUpdate.setDetectedBackgroundColor ++
      match subMenu with
      | some id =>
        detectColors doc id DetectedUpdate.setDetectedOverlayColor
          DetectedUpdate.setDetectedOverlayBackgroundColor
      | none => []

/-- Splitting an ancestor chain: a leading element contributes its background
to the reachable backgrounds; a leading non-element cuts the chain. -/
lemma elementBackgrounds_cons (a : AncestorNode) (rest : List AncestorNode) :
    elementBackgrounds (a :: rest)
      = if a.nodeType = DomNodeType.element
        then a.backgroundColor :: elementBackgrounds rest
        else [] := by
  by_cases h : a.nodeType = DomNodeType.element <;>
    simp [elementBackgrounds, List.takeWhile_cons, h]

/-- Peeling one reachable background off the result specification when the
current background is transparent. -/
lemma walkSpecResult_cons_transparent (b : String) (ebs : List String) :
    walkSpecResult transparentBackground (b :: ebs) = walkSpecResult b ebs := by
  by_cases h : b = transparentBackground
  · subst h
    simp only [walkSpecResult, if_pos rfl]
    rw [List.find?_cons_of_neg _ (by simp)]
    rcases hf : ebs.find? (fun x => x != transparentBackground) with _ | c
    · simp only [hf, List.getLastD_cons]
    · simp only [hf]
  · have hp : (b != transparentBackground) = true := by simp [h]
    simp [walkSpecResult, h, List.find?_cons_of_pos _ hp]

/-- Peeling one reachable background off the step-count specification when
the current background is transparent. -/
lemma walkSpecSteps_cons_transparent (b : String) (ebs : List String) :
    walkSpecSteps transparentBackground (b :: ebs)
      = walkSpecSteps b ebs + 1 := by
  by_cases h : b = transparentBackground
  · subst h
    simp only [walkSpecSteps, if_pos rfl, List.takeWhile_cons]
    simp [Nat.succ_min_succ]
  · have hp : (b == transparentBackground) = false := by simp [h]
    simp [walkSpecSteps, h, hp, List.takeWhile_cons]

/-- The upward walk of `detectColors` computes exactly the specified value
and the specified number of ancestor steps. -/
lemma backgroundWalk_eq_spec (ancestors : List AncestorNode) (bg : String) :
    backgroundWalk bg ancestors
      = (walkSpecResult bg (elementBackgrounds ancestors),
         walkSpecSteps bg (elementBackgrounds ancestors)) := by
  induction ancestors generalizing bg with
  | nil =>
    by_cases h : bg = transparentBackground <;>
      simp [backgroundWalk, elementBackgrounds, walkSpecResult,
        walkSpecSteps, h]
  | cons a rest ih =>
    by_cases hbg : bg = transparentBackground
    · by_cases ha : a.nodeType = DomNodeType.element
      · subst hbg
        rw [elementBackgrounds_cons, if_pos ha,
          walkSpecResult_cons_transparent, walkSpecSteps_cons_transparent]
        simp [backgroundWalk, ih, ha]
      · subst hbg
        rw [elementBackgrounds_cons, if_neg ha]
        simp [backgroundWalk, ha, walkSpecResult, walkSpecSteps]
    · simp [backgroundWalk, hbg, walkSpecResult, walkSpecSteps]

/-- A single handler step can only hide the placeholder (on a creation
event) or leave the flag untouched, never show it. -/
lemma navStep_isPlaceholderShown (s : NavState) (e : NavEvent) :
    (navStep s e).isPlaceholderShown
      = (s.isPlaceholderShown && ! navIsCreateEvent e) := by
  cases e <;> simp only [navStep, navIsCreateEvent] <;> split <;> simp_all

/-- Over any event sequence, the placeholder flag is the mount value
conjoined with the absence of creation events. -/
lemma navRun_isPlaceholderShown (evs : List NavEvent) (s : NavState) :
    (navRun s evs).isPlaceholderShown
      = (s.isPlaceholderShown && ! evs.any navIsCreateEvent) := by
  induction evs generalizing s with
  | nil => simp [navRun]
  | cons e rest ih =>
    have h1 : navRun s (e :: rest) = navRun (navStep s e) rest := rfl
    rw [h1, ih, navStep_isPlaceholderShown]
    simp [List.any_cons, Bool.and_assoc]

/-- `find?` over a list whose prefix all fails the predicate returns the
first satisfying element after the prefix. -/
lemma find?_first_after {α : Type} (p : α → Bool) (pre post : List α)
    (b : α) (hpre : ∀ x ∈ pre, p x = false) (hb : p b = true) :
    (pre ++ b :: post).find? p = some b := by
  induction pre with
  | nil => simpa using List.find?_cons_of_pos _ hb
  | cons x xs ih =>
    have hx : ¬ p x = true := by
      simp [hpre x (List.mem_cons_self x xs)]
    rw [List.cons_append, List.find?_cons_of_neg _ hx]
    exact ih fun y hy => hpre y (List.mem_cons_of_mem x hy)

/-- Claim C1: calling the children-replace operation with an empty list
signals failure to the caller (the `return false` branch of line 335) and
dispatches no replacement, so the block's existing children are unchanged. -/
theorem updateInnerBlocks_empty_list_rejected (current : List NavBlock) :
    updateInnerBlocks (some []) = UpdateResult.failure ∧
    applyUpdateInnerBlocks current (updateInnerBlocks (some [])) = current := by
  constructor <;> rfl

/-- Claim C10: the guard `blocks?.length === 0` is false for a nullish
argument (the optional chain yields `undefined`, and `undefined === 0` is
`false`), so the operation does not signal failure and instead proceeds to
dispatch `replaceInnerBlocks` with the nullish value. -/
theorem updateInnerBlocks_nullish_dispatches :
    emptyListGuard none = false ∧
    updateInnerBlocks none = UpdateResult.dispatched none := by
  constructor <;> rfl

/-- Claim C7: `subMenuClientId` is the client id of the first inner block
(first grandchild) of the first child that itself has children, and is
undefined when no child has children. -/
theorem subMenuClientId_first_grandchild (l pre post : List NavBlock)
    (b g : NavBlock) (gs : List NavBlock) :
    ((∀ x ∈ l, x.innerBlocks.length = 0) → subMenuClientId l = none) ∧
    ((∀ x ∈ pre, x.innerBlocks.length = 0) → b.innerBlocks = g :: gs →
      subMenuClientId (pre ++ b :: post) = some g.clientId) := by
  constructor
  · intro h
    have hf : l.find? (fun x => x.innerBlocks.length != 0) = none := by
      rw [List.find?_eq_none]
      intro x hx
      simp [h x hx]
    simp [subMenuClientId, hf]
  · intro hpre hb
    have hf : (pre ++ b :: post).find? (fun x => x.innerBlocks.length != 0)
        = some b := by
      apply find?_first_after
      · intro x hx
        simp [hpre x hx]
      · simp [hb]
    simp [subMenuClientId, hf, hb]

/-- Witness for C7: on a concrete list whose only child is childless the
lookup yields none; prepending that childless child before a child with two
grandchildren yields the first grandchild's id. -/
theorem subMenuClientId_first_grandchild_witness :
    subMenuClientId [NavBlock.mk "a" []] = none ∧
    subMenuClientId
        ([NavBlock.mk "a" []] ++
          NavBlock.mk "b" [NavBlock.mk "g" [], NavBlock.mk "h" []] :: []) =
      some "g" :=
  ⟨(subMenuClientId_first_grandchild [NavBlock.mk "a" []] [] []
      (NavBlock.mk "b" []) (NavBlock.mk "g" []) []).1 (by decide),
   (subMenuClientId_first_grandchild [] [NavBlock.mk "a" []] []
      (NavBlock.mk "b" [NavBlock.mk "g" [], NavBlock.mk "h" []])
      (NavBlock.mk "g" []) [NavBlock.mk "h" []]).2 (by decide) rfl⟩

/-- A concrete attribute set used by witnesses: vertical orientation with
center justification. -/
def sampleAttributes : NavAttributes :=
  { orientation := some "vertical"
    itemsJustification := some "center"
    showSubmenuIcon := false
    isResponsive := false }

/-- A concrete color-slot assignment with every slot unset. -/
def sampleColors : NavColorSlots :=
  { textColor := none
    backgroundColor := none
    overlayTextColor := none
    overlayBackgroundColor := none }

/-- A concrete mounted state with one existing child, so the placeholder is
hidden from the start. -/
def samplePopulatedState : NavState :=
  initState [NavBlock.mk "child-1" []] sampleAttributes sampleColors

/-- A concrete document with no nodes at all. -/
def emptyDomDocument : DomDocument := fun _ => none

/-- A concrete node whose own background is transparent, under a transparent
element parent, an opaque element grandparent, and the document root. -/
def sampleDomNode : DomNode :=
  { color := "rgb(10, 20, 30)"
    backgroundColor := transparentBackground
    parentChain :=
      [{ nodeType := DomNodeType.element
         backgroundColor := transparentBackground },
       { nodeType := DomNodeType.element
         backgroundColor := "rgb(200, 200, 200)" },
       { nodeType := DomNodeType.document
         backgroundColor := transparentBackground }] }

/-- A concrete document holding `sampleDomNode` under the id the component
derives for client id nav-root. -/
def sampleDomDocument : DomDocument := fun id =>
  if id = "block-nav-root" then some sampleDomNode else none

/-- Counterexample to claim C2 as stated: from a mount with no children the
placeholder is shown; a creation event carrying an empty block list then
hides it - the handler runs `setIsPlaceholderShown( false )` before
`updateInnerBlocks` rejects the list - even though no creation event has
supplied child content and the children are still empty. So
`isPlaceholderShown` can be false while the claimed right-hand side (empty
at mount and no content supplied since) still holds. -/
theorem placeholder_iff_content_counterexample :
    (initState [] sampleAttributes sampleColors).isPlaceholderShown = true ∧
    (List.all [NavEvent.onCreate (some []) false]
        fun e => ! suppliesChildContent e) = true ∧
    (navRun (initState [] sampleAttributes sampleColors)
        [NavEvent.onCreate (some []) false]).isPlaceholderShown = false ∧
    (navRun (initState [] sampleAttributes sampleColors)
        [NavEvent.onCreate (some []) false]).innerBlocks.length = 0 :=
  ⟨rfl, rfl, rfl, rfl⟩

/-- Claim C2 (amended): for every reachable state, the placeholder is shown
exactly when no child items existed at mount and no creation event has
occurred since. (The unamended claim conditions on the creation event having
supplied child content; the handler hides the placeholder on any creation
event, even one whose empty list is rejected, so only this form holds.) -/
theorem placeholder_shown_iff_amended (innerBlocks : List NavBlock)
    (attrs : NavAttributes) (colors : NavColorSlots) (evs : List NavEvent) :
    (navRun (initState innerBlocks attrs colors) evs).isPlaceholderShown
      = (innerBlocks.isEmpty && ! evs.any navIsCreateEvent) := by
  rw [navRun_isPlaceholderShown]
  have h1 : (initState innerBlocks attrs colors).isPlaceholderShown
      = innerBlocks.isEmpty := by
    cases innerBlocks <;> rfl
  rw [h1]

/-- Claim C3: the background discovered by the color detector's walk is
specified by `walkSpecResult` and the number of ancestors it steps onto by
`walkSpecSteps`: a non-transparent starting background is reported as is
with no ancestor read, and from a transparent start the walk proceeds
exactly until the first non-transparent element-ancestor background or the
exhaustion of the reachable element ancestors, reporting the last-read
value. -/
theorem backgroundWalk_correct (bg : String) (ancestors : List AncestorNode) :
    backgroundWalk bg ancestors
      = (walkSpecResult bg (elementBackgrounds ancestors),
         walkSpecSteps bg (elementBackgrounds ancestors)) ∧
    (bg ≠ transparentBackground → backgroundWalk bg ancestors = (bg, 0)) := by
  refine ⟨backgroundWalk_eq_spec ancestors bg, fun h => ?_⟩
  cases ancestors with
  | nil => rfl
  | cons a rest => simp [backgroundWalk, h]

/-- Witness for C3: an opaque starting background is reported unchanged with
zero ancestor steps, even above a chain that holds an opaque ancestor. -/
theorem backgroundWalk_correct_witness :
    ("rgb(1, 2, 3)" : String) ≠ transparentBackground ∧
    backgroundWalk "rgb(1, 2, 3)" sampleDomNode.parentChain
      = ("rgb(1, 2, 3)", 0) :=
  ⟨by decide,
   (backgroundWalk_correct "rgb(1, 2, 3)" sampleDomNode.parentChain).2
     (by decide)⟩

/-- Claim C4: the placeholder-to-populated transition is one-way: from any
state in which the placeholder is hidden, no event handler of the component
ever shows it again - neither a single step nor any sequence of events. -/
theorem placeholder_transition_one_way (s : NavState) (evs : List NavEvent)
    (h : s.isPlaceholderShown = false) :
    (navRun s evs).isPlaceholderShown = false ∧
    ∀ e : NavEvent, (navStep s e).isPlaceholderShown = false := by
  constructor
  · rw [navRun_isPlaceholderShown, h]
    rfl
  · intro e
    rw [navStep_isPlaceholderShown, h]
    rfl

/-- Witness for C4: a populated mount stays populated across a creation
event, a toggle and a color change. -/
theorem placeholder_transition_one_way_witness :
    samplePopulatedState.isPlaceholderShown = false ∧
    NavState.isPlaceholderShown
      (navRun samplePopulatedState
        [NavEvent.onCreate (some []) false,
         NavEvent.onToggleResponsiveMenu true,
         NavEvent.onChangeColor NavColorSlotName.text (some "#fff")]) = false :=
  ⟨rfl,
   (placeholder_transition_one_way samplePopulatedState
      [NavEvent.onCreate (some []) false,
       NavEvent.onToggleResponsiveMenu true,
       NavEvent.onChangeColor NavColorSlotName.text (some "#fff")] rfl).1⟩

/-- Claim C5: a vertical orientation allows exactly left, center and right
in the justification toolbar; a horizontal one additionally allows
space-between; and in the populated view with orientation vertical and
itemsJustification center the toolbar is mounted with those three options
and current value center. -/
theorem justifyAllowedControls_by_orientation (platformOS : String)
    (hS : Bool) (d1 d2 d3 d4 : Option String) (s : NavState)
    (hShown : s.isPlaceholderShown = false)
    (hOrient : s.attributes.orientation = some "vertical")
    (hJust : s.attributes.itemsJustification = some "center") :
    justifyAllowedControls (some "vertical") = ["left", "center", "right"] ∧
    justifyAllowedControls (some "horizontal")
      = ["left", "center", "right", "space-between"] ∧
    (renderNavigation platformOS hS true d1 d2 d3 d4 s).justifyToolbar
      = some { value := some "center"
               allowedControls := ["left", "center", "right"] } := by
  refine ⟨rfl, by simp [justifyAllowedControls], ?_⟩
  simp [renderNavigation, hShown, justifyAllowedControls, hOrient, hJust]

/-- Witness for C5 at the concrete populated state with vertical orientation
and center justification. -/
theorem justifyAllowedControls_by_orientation_witness :
    samplePopulatedState.isPlaceholderShown = false ∧
    samplePopulatedState.attributes.orientation = some "vertical" ∧
    samplePopulatedState.attributes.itemsJustification = some "center" ∧
    (renderNavigation "web" true true none none none none
        samplePopulatedState).justifyToolbar
      = some { value := some "center"
               allowedControls := ["left", "center", "right"] } :=
  ⟨rfl, rfl, rfl,
   (justifyAllowedControls_by_orientation "web" true none none none none
      samplePopulatedState rfl rfl rfl).2.2⟩

/-- Claim C6: in the populated view the pair of contrast-warning displays is
mounted exactly when the platform flag is web; on any other platform the
displays are absent in every state regardless of detected or configured
colors, and the color-detection effect performs no update at all. -/
theorem contrastCheckers_web_only (platformOS : String) (hS hJ : Bool)
    (d1 d2 d3 d4 : Option String) (s t : NavState) (doc : DomDocument)
    (clientId : String) (subMenu : Option String)
    (hShown : s.isPlaceholderShown = false) :
    ((renderNavigation platformOS hS hJ d1 d2 d3 d4 s).contrastCheckers.isSome
        = (platformOS == "web")) ∧
    (platformOS ≠ "web" →
      (renderNavigation platformOS hS hJ d1 d2 d3 d4 t).contrastCheckers
          = none ∧
      navigationEffect platformOS doc clientId subMenu = []) := by
  constructor
  · cases hw : (platformOS == "web") <;>
      simp [renderNavigation, hShown, enableContrastChecking, hw]
  · intro hweb
    have hflag : (platformOS == "web") = false := by
      simp [hweb]
    constructor
    · by_cases hp : t.isPlaceholderShown = true
      · simp [renderNavigation, hp]
      · simp [renderNavigation, hp, enableContrastChecking, hflag]
    · simp [navigationEffect, enableContrastChecking, hflag]

/-- Witness for C6 on a non-web platform: no contrast checkers in the
populated view and an empty effect. -/
theorem contrastCheckers_web_only_witness :
    samplePopulatedState.isPlaceholderShown = false ∧
    ("native" : String) ≠ "web" ∧
    (renderNavigation "native" true true none none none none
        samplePopulatedState).contrastCheckers = none ∧
    navigationEffect "native" emptyDomDocument "nav-root" none = [] := by
  refine ⟨rfl, by decide, ?_, ?_⟩
  · exact ((contrastCheckers_web_only "native" true true none none none none
      samplePopulatedState samplePopulatedState emptyDomDocument "nav-root"
      none rfl).2 (by decide)).1
  · exact ((contrastCheckers_web_only "native" true true none none none none
      samplePopulatedState samplePopulatedState emptyDomDocument "nav-root"
      none rfl).2 (by decide)).2

/-- Claim C8: when no DOM node is found for the client id the color detector
is a no-op: it invokes neither callback and performs no other action. -/
theorem detectColors_missing_node {α : Type} (doc : DomDocument)
    (clientId : String) (setColor setBackground : String → α)
    (h : getBlockDOMNode clientId doc = none) :
    detectColors doc clientId setColor setBackground = [] := by
  simp [detectColors, h]

/-- Witness for C8 on a document without any node. -/
theorem detectColors_missing_node_witness :
    getBlockDOMNode "nav-root" emptyDomDocument = none ∧
    detectColors emptyDomDocument "nav-root"
        DetectedUpdate.setDetectedColor
        DetectedUpdate.setDetectedBackgroundColor = [] :=
  ⟨rfl,
   detectColors_missing_node emptyDomDocument "nav-root"
     DetectedUpdate.setDetectedColor DetectedUpdate.setDetectedBackgroundColor
     rfl⟩

/-- Claim C9: on a present DOM node the detector's entire effect is exactly
one text-color callback invocation carrying the node's computed color,
followed by exactly one background callback invocation carrying the walk's
discovered background; nothing else is mutated. -/
theorem detectColors_present_node {α : Type} (doc : DomDocument)
    (clientId : String) (node : DomNode)
    (setColor setBackground : String → α)
    (h : getBlockDOMNode clientId doc = some node) :
    detectColors doc clientId setColor setBackground
      = [setColor node.color,
         setBackground
           (backgroundWalk node.backgroundColor node.parentChain).1] := by
  simp [detectColors, h]

/-- Witness for C9 on the concrete document: the detector reports the node's
color and the opaque grandparent background, one callback each. -/
theorem detectColors_present_node_witness :
    getBlockDOMNode "nav-root" sampleDomDocument = some sampleDomNode ∧
    detectColors sampleDomDocument "nav-root"
        DetectedUpdate.setDetectedColor
        DetectedUpdate.setDetectedBackgroundColor
      = [DetectedUpdate.setDetectedColor "rgb(10, 20, 30)",
         DetectedUpdate.setDetectedBackgroundColor "rgb(200, 200, 200)"] := by
  refine ⟨rfl, ?_⟩
  rw [detectColors_present_node sampleDomDocument "nav-root" sampleDomNode
    DetectedUpdate.setDetectedColor DetectedUpdate.setDetectedBackgroundColor
    rfl]
  rfl
